import Mathlib

/-!
Shallow embedding of `pcsx2/GS/GS3DScreenshot.{h,cpp}` — the 3D-screenshot
batch accumulator, the CLAMP wrap-region resolver and the OBJ/MTL
serializer — together with proofs about the properties its specification
states.

Machine integers are modelled as `Nat` with explicit reductions modulo
`2 ^ 32` (u32) and `2 ^ 16` (u16) at the points where the C++ types
truncate; `float` arithmetic on vertex/UV data is idealised as exact
rational arithmetic.
-/

namespace GS3D

/-- Wrap-mode selector held in the `WMS`/`WMT` fields of the CLAMP
register: `CLAMP_REPEAT`, `CLAMP_CLAMP`, `CLAMP_REGION_CLAMP`,
`CLAMP_REGION_REPEAT`. -/
inductive WrapMode where
  | REPEAT
  | CLAMP
  | REGION_CLAMP
  | REGION_REPEAT
deriving DecidableEq, Repr

/-- Modelled from the spec: `GIFRegCLAMP` is declared in `GS/GSRegs.h`,
which is not among the sources of this unit; per the spec it carries a
wrap-mode selector per axis plus two unsigned ("10-bit-ish") parameter
fields per axis (`MINU`/`MAXU` horizontally, `MINV`/`MAXV` vertically). -/
structure GIFRegCLAMP where
  WMS : WrapMode
  WMT : WrapMode
  MINU : Nat
  MAXU : Nat
  MINV : Nat
  MAXV : Nat
deriving DecidableEq, Repr

/-- `GS3DScreenshot::TextureRegion`: four u16 bounds of a texture
sub-rectangle (field values are kept as `Nat`; producers reduce mod
`2 ^ 16` where the C++ u16 fields truncate). -/
structure TextureRegion where
  u_min : Nat
  u_max : Nat
  v_min : Nat
  v_max : Nat
deriving DecidableEq, Repr

/-- `TextureRegion::operator==` exactly as written in the header: note the
last conjunct compares `v_max` with `other.u_max`. -/
def TextureRegion.eqOp (r other : TextureRegion) : Bool :=
  r.u_min == other.u_min && r.u_max == other.u_max &&
  r.v_min == other.v_min && r.v_max == other.u_max

/-- u32 value of `dim - 1` (wraps around when `dim = 0`). -/
def u32pred (dim : Nat) : Nat := (dim + (2 ^ 32 - 1)) % 2 ^ 32

/-- The body of one iteration (one axis) of the loop in
`GS3DScreenshot::GetTextureRegionForCLAMP`: given the wrap mode and the
`MIN`/`MAX` parameter fields for this axis plus the axis dimension,
returns the `(min, max)` pair stored into the region. -/
def resolveAxis (WM : WrapMode) (MIN MAX dim : Nat) : Nat × Nat :=
  let p :=
    match WM with
    | .REGION_CLAMP => (MIN, MAX)
    | .REGION_REPEAT =>
      -- MSK := MIN, FIX := MAX
      if ((MIN + 1) % 2 ^ 32) &&& MIN = 0 ∧ MAX &&& MIN = 0 then
        (MAX, (MAX + MIN) % 2 ^ 32)
      else
        (0, u32pred dim)
    | _ => (0, u32pred dim)
  let max1 := Nat.min p.2 (u32pred dim)
  let min1 := Nat.min p.1 max1
  (min1, max1)

/-- `GS3DScreenshot::GetTextureRegionForCLAMP`: per-axis resolution, the
results being stored into the region's u16 fields. -/
def GetTextureRegionForCLAMP (CLAMP : GIFRegCLAMP) (twidth theight : Nat) :
    TextureRegion :=
  let u := resolveAxis CLAMP.WMS CLAMP.MINU CLAMP.MAXU twidth
  let v := resolveAxis CLAMP.WMT CLAMP.MINV CLAMP.MAXV theight
  { u_min := u.1 % 2 ^ 16, u_max := u.2 % 2 ^ 16,
    v_min := v.1 % 2 ^ 16, v_max := v.2 % 2 ^ 16 }

/-! ### Helper lemmas about the bit-mask test -/

theorem land_eq_zero_iff (x y : Nat) :
    x &&& y = 0 ↔ ∀ i, ¬(x.testBit i = true ∧ y.testBit i = true) := by
  constructor
  · intro h i hi
    have := congrArg (fun z => Nat.testBit z i) h
    simp only [Nat.testBit_land, Nat.zero_testBit] at this
    rw [hi.1, hi.2] at this
    simp at this
  · intro h
    apply Nat.eq_of_testBit_eq
    intro i
    simp only [Nat.testBit_land, Nat.zero_testBit]
    by_cases hx : x.testBit i = true
    · by_cases hy : y.testBit i = true
      · exact absurd ⟨hx, hy⟩ (h i)
      · simp [hy]
    · simp [hx]

theorem succ_land_self_of_pow (n k : Nat) (h : n + 1 = 2 ^ k) :
    (n + 1) &&& n = 0 := by
  have hn : n = 2 ^ k - 1 := by omega
  rw [h, hn]
  rw [land_eq_zero_iff]
  intro i hi
  rcases hi with ⟨h1, h2⟩
  rw [Nat.testBit_two_pow_sub_one] at h2
  rw [Nat.testBit_two_pow] at h1
  simp at h1 h2
  omega

theorem pow_of_succ_land_self (n : Nat) (h : (n + 1) &&& n = 0) :
    ∃ k, n + 1 = 2 ^ k := by
  induction n using Nat.strong_induction_on with
  | _ n ih =>
    rcases Nat.eq_zero_or_pos n with hz | hp
    · exact ⟨0, by omega⟩
    rw [land_eq_zero_iff] at h
    rcases Nat.even_or_odd n with he | ho
    · -- n even and positive: bits ≥ 1 of n+1 and n agree, forcing n/2 = 0
      exfalso
      have hmod : n % 2 = 0 := Nat.even_iff.mp he
      have hdiv : (n + 1) / 2 = n / 2 := by omega
      have hhalf : n / 2 = 0 := by
        apply Nat.eq_of_testBit_eq
        intro i
        rw [Nat.zero_testBit]
        by_contra hb
        have hb' : (n / 2).testBit i = true := by
          cases hx : (n / 2).testBit i
          · exact absurd hx hb
          · rfl
        apply h (i + 1)
        constructor
        · rw [Nat.testBit_add_one, hdiv]; exact hb'
        · rw [Nat.testBit_add_one]; exact hb'
      omega
    · -- n odd: recurse on m = n / 2 with (m+1) &&& m = 0
      have hmod : n % 2 = 1 := Nat.odd_iff.mp ho
      have hdiv : (n + 1) / 2 = n / 2 + 1 := by omega
      have hrec : (n / 2 + 1) &&& (n / 2) = 0 := by
        rw [land_eq_zero_iff]
        intro i hi
        apply h (i + 1)
        constructor
        · rw [Nat.testBit_add_one, hdiv]; exact hi.1
        · rw [Nat.testBit_add_one]; exact hi.2
      have hlt : n / 2 < n := by omega
      rcases ih (n / 2) hlt hrec with ⟨k, hk⟩
      refine ⟨k + 1, ?_⟩
      have : n + 1 = 2 * (n / 2 + 1) := by omega
      rw [this, hk]
      ring

theorem succ_land_self_iff (n : Nat) :
    (n + 1) &&& n = 0 ↔ ∃ k, n + 1 = 2 ^ k := by
  constructor
  · exact pow_of_succ_land_self n
  · intro ⟨k, hk⟩
    exact succ_land_self_of_pow n k hk

theorem u32pred_of_le (dim : Nat) (h1 : 1 ≤ dim) (h2 : dim ≤ 2 ^ 16) :
    u32pred dim = dim - 1 := by
  unfold u32pred
  have he : dim + (2 ^ 32 - 1) = (dim - 1) + 2 ^ 32 := by omega
  rw [he, Nat.add_mod_right, Nat.mod_eq_of_lt (by omega)]

/-! ### The batch accumulator -/

/-- `GS3DScreenshot::Tri::Vert`: position, homogeneous q, texture
coordinates (floats idealised as `ℚ`) and an 8-bit colour. -/
structure Vert where
  x : ℚ
  y : ℚ
  z : ℚ
  q : ℚ
  u : ℚ
  v : ℚ
  r : Nat
  g : Nat
  b : Nat
  a : Nat
deriving DecidableEq, Repr

/-- `GS3DScreenshot::Tri`: the fixed-size array `verts[3]` is modelled by
the three fields `v0`, `v1`, `v2` (in array order). -/
structure Tri where
  v0 : Vert
  v1 : Vert
  v2 : Vert
  culled : Bool
  texture_enabled : Bool
  texture_index : Nat
deriving DecidableEq, Repr

/-- The mutable state of a `GS3DScreenshot` object. The unordered map
`m_texture_map` is modelled as an association list (new bindings are
consed at the front; lookup is by key, so insertion order is otherwise
irrelevant, matching a hash map). `m_cur_texture_index` has no
initialiser in the C++ class, so a fresh state takes it as a parameter. -/
structure BatchState where
  m_tris : List Tri
  m_textures : List String
  m_cur_texture_index : Nat
  m_texture_map : List (String × Nat)
  m_u_offset : ℚ
  m_v_offset : ℚ
  m_u_scale : ℚ
  m_v_scale : ℚ
deriving DecidableEq, Repr

/-- A freshly constructed `GS3DScreenshot`: empty containers, the UV
remap fields at their in-class initialisers (offset 0, scale 1), and the
uninitialised `m_cur_texture_index` modelled by the arbitrary value
`c0`. -/
def initState (c0 : Nat) : BatchState :=
  { m_tris := [], m_textures := [], m_cur_texture_index := c0,
    m_texture_map := [],
    m_u_offset := 0, m_v_offset := 0, m_u_scale := 1, m_v_scale := 1 }

/-- `GS3DScreenshot::IsEmpty`. -/
def IsEmpty (s : BatchState) : Bool := s.m_tris.isEmpty

/-- `GS3DScreenshot::SetTextureName`: `m_texture_map.insert` keeps an
existing binding (returning its index) and otherwise binds the name to
`m_textures.size()` and appends the name to `m_textures`; either way
`m_cur_texture_index` becomes the binding's index. -/
def SetTextureName (s : BatchState) (new_name : String) : BatchState :=
  let next_texture_index := s.m_textures.length
  match s.m_texture_map.lookup new_name with
  | some idx => { s with m_cur_texture_index := idx }
  | none =>
    { s with
      m_textures := s.m_textures ++ [new_name],
      m_texture_map := (new_name, next_texture_index) :: s.m_texture_map,
      m_cur_texture_index := next_texture_index }

/-- `GS3DScreenshot::SetTextureRegion`: recompute the UV remap state.
The C++ divisor `region.u_max - region.u_min + 1` is computed in `int`
(u16 operands promote), hence the signed subtraction over `ℚ` here. -/
def SetTextureRegion (s : BatchState) (region : TextureRegion)
    (twidth theight : Nat) : BatchState :=
  { s with
    m_u_offset := -(region.u_min : ℚ) / (twidth : ℚ),
    m_v_offset := -(region.v_min : ℚ) / (theight : ℚ),
    m_u_scale := (twidth : ℚ) / ((region.u_max : ℚ) - (region.u_min : ℚ) + 1),
    m_v_scale := (theight : ℚ) / ((region.v_max : ℚ) - (region.v_min : ℚ) + 1) }

/-- The per-vertex UV update in `GS3DScreenshot::AddTri`:
`u += m_u_offset; v += m_v_offset; u *= m_u_scale; v *= m_v_scale`. -/
def remapVert (s : BatchState) (vt : Vert) : Vert :=
  { vt with
    u := (vt.u + s.m_u_offset) * s.m_u_scale,
    v := (vt.v + s.m_v_offset) * s.m_v_scale }

/-- `GS3DScreenshot::AddTri`: if textured, stamp the current texture
index and remap all three vertices; append unconditionally. -/
def AddTri (s : BatchState) (tri : Tri) : BatchState :=
  let tri' :=
    if tri.texture_enabled then
      { tri with
        texture_index := s.m_cur_texture_index,
        v0 := remapVert s tri.v0,
        v1 := remapVert s tri.v1,
        v2 := remapVert s tri.v2 }
    else tri
  { s with m_tris := s.m_tris ++ [tri'] }

/-- One mutating call on the accumulator, for reachability statements. -/
inductive BatchOp where
  | setName : String → BatchOp
  | setRegion : TextureRegion → Nat → Nat → BatchOp
  | addTri : Tri → BatchOp

/-- Apply one call. -/
def applyOp (s : BatchState) : BatchOp → BatchState
  | .setName n => SetTextureName s n
  | .setRegion r tw th => SetTextureRegion s r tw th
  | .addTri t => AddTri s t

/-- Apply a call sequence left to right. -/
def runOps (s : BatchState) (ops : List BatchOp) : BatchState :=
  ops.foldl applyOp s

/-! ### The serializer -/

/-- Text of the comment header line of the OBJ output. -/
def objHeaderText : String := "PCSX2 3D Screenshot"

/-- Material name used for untextured triangles. -/
def noTextureName : String := "NoTexture"

/-- Stand-in value for the undefined-behaviour read
`m_textures[out-of-range]`. -/
def oobName : String := ""

/-- One printed record of the OBJ output. Numeric payloads carry the
exact values passed to `fmt::print` (colour channels already divided by
255, the texture v coordinate already flipped); the group record keeps
the culled flag (`true` prints as "Culled", `false` as "Normal"). -/
inductive ObjLine where
  | comment : String → ObjLine
  | mtllib : String → ObjLine
  | v : ℚ → ℚ → ℚ → ℚ → ℚ → ℚ → ObjLine
  | vt : ℚ → ℚ → ObjLine
  | g : Bool → ObjLine
  | usemtl : String → ObjLine
  | f : List (Int × Int) → ObjLine
deriving DecidableEq, Repr

/-- The `v` record printed for one vertex. -/
def vLineOf (vt : Vert) : ObjLine :=
  .v vt.x vt.y vt.z ((vt.r : ℚ) / 255) ((vt.g : ℚ) / 255) ((vt.b : ℚ) / 255)

/-- The `vt` record printed for one vertex (v axis flipped). -/
def vtLineOf (vt : Vert) : ObjLine := .vt vt.u (1 - vt.v)

/-- The records printed for one triangle of the loop in
`GS3DScreenshot::DumpOBJ`, given the previous triangle (`none` on the
first iteration). Out-of-range texture indices — undefined behaviour in
the C++ `m_textures[...]` — are modelled by `List.getD` with default
`""`. -/
def triObjLines (prev : Option Tri) (tri : Tri) (textures : List String) :
    List ObjLine :=
  [vLineOf tri.v0, vLineOf tri.v1, vLineOf tri.v2] ++
  [vtLineOf tri.v0, vtLineOf tri.v1, vtLineOf tri.v2] ++
  (match prev with
   | none => [ObjLine.g tri.culled]
   | some p => if p.culled != tri.culled then [ObjLine.g tri.culled] else []) ++
  (match prev with
   | none =>
     [ObjLine.usemtl
       (if tri.texture_enabled then textures.getD tri.texture_index oobName
        else noTextureName)]
   | some p =>
     if p.texture_enabled != tri.texture_enabled ||
        p.texture_index != tri.texture_index then
       [ObjLine.usemtl
         (if tri.texture_enabled then textures.getD tri.texture_index oobName
          else noTextureName)]
     else []) ++
  [ObjLine.f [(-3, -3), (-1, -1), (-2, -2)]]

/-- The triangle loop of `DumpOBJ`, threading the previous triangle. -/
def objBody (prev : Option Tri) (tris : List Tri) (textures : List String) :
    List ObjLine :=
  match tris with
  | [] => []
  | t :: ts => triObjLines prev t textures ++ objBody (some t) ts textures

/-- `GS3DScreenshot::DumpOBJ` as the list of records it writes (path
handling and the possibility of the file failing to open are outside the
model). -/
def DumpOBJ (s : BatchState) (filename : String) : List ObjLine :=
  ObjLine.comment objHeaderText :: ObjLine.mtllib filename ::
    objBody none s.m_tris s.m_textures

/-- One printed record of the MTL output. -/
inductive MtlLine where
  | newmtl : String → MtlLine
  | kd : ℚ → ℚ → ℚ → MtlLine
  | map_kd : String → MtlLine
deriving DecidableEq, Repr

/-- `GS3DScreenshot::DumpMTL` as the list of records it writes. -/
def DumpMTL (s : BatchState) : List MtlLine :=
  MtlLine.newmtl noTextureName :: MtlLine.kd 1 1 1 ::
    (s.m_textures.flatMap fun t => [MtlLine.newmtl t, MtlLine.map_kd t])

/-- `GS3DScreenshot::DumpToFile` viewed as a state transition: the method
is `const`, so the resulting state is the input state and the outputs are
the two record lists. -/
def DumpToFile (s : BatchState) (filename : String) :
    BatchState × List ObjLine × List MtlLine :=
  (s, DumpOBJ s filename, DumpMTL s)

/-! ### Observations on the serialized output -/

/-- Is this record a vertex-position (`v`) record? -/
def isV : ObjLine → Bool
  | .v _ _ _ _ _ _ => true
  | _ => false

/-- Is this record a texture-coordinate (`vt`) record? -/
def isVt : ObjLine → Bool
  | .vt _ _ => true
  | _ => false

/-- Is this record a face (`f`) record? -/
def isF : ObjLine → Bool
  | .f _ => true
  | _ => false

/-- Is this record a group (`g`) record? -/
def isG : ObjLine → Bool
  | .g _ => true
  | _ => false

/-- Resolve an OBJ negative (relative-to-end) index against the list of
records of one kind emitted so far: `-1` is the most recent, `-2` the one
before it, and so on. -/
def negRef (vs : List ObjLine) (k : Int) : Option ObjLine :=
  vs.reverse.get? (k.natAbs - 1)

/-- The group (`g`) records of an output, each tagged with the number of
face records emitted before it — i.e. the index of the triangle whose
block it belongs to. -/
def gEvents (k : Nat) : List ObjLine → List (Nat × Bool)
  | [] => []
  | ObjLine.f _ :: rest => gEvents (k + 1) rest
  | ObjLine.g b :: rest => (k, b) :: gEvents k rest
  | _ :: rest => gEvents k rest

/-- The group records the spec calls for: one for the first triangle and
then one exactly at each change of the culled flag relative to the
immediately preceding triangle. -/
def gExpected (prev : Option Bool) (k : Nat) : List Tri → List (Nat × Bool)
  | [] => []
  | t :: ts =>
    (if prev = some t.culled then [] else [(k, t.culled)]) ++
      gExpected (some t.culled) (k + 1) ts

/-! ### Concrete sample data for witnesses and counterexamples -/

/-- A sample vertex with distinctive coordinates. -/
def sampleVert : Vert :=
  { x := 1, y := 2, z := 3, q := 1, u := 5, v := 7,
    r := 10, g := 20, b := 30, a := 40 }

/-- A sample textured triangle (the caller-set `texture_index` 99 is
overwritten by `AddTri`). -/
def sampleTexTri : Tri :=
  { v0 := sampleVert, v1 := sampleVert, v2 := sampleVert,
    culled := false, texture_enabled := true, texture_index := 99 }

/-- A sample untextured triangle. -/
def samplePlainTri : Tri :=
  { v0 := sampleVert, v1 := sampleVert, v2 := sampleVert,
    culled := true, texture_enabled := false, texture_index := 0 }

/-- A sample texture name. -/
def sampleName : String := "tex0"

/-- A sample dump base name. -/
def sceneName : String := "scene"

/-! ### Claim C7 -/

/-- C7: calling `SetTextureName` twice with the same name leaves the
state reached after the first call completely unchanged (so the texture
table does not grow and the same current index is in force after both
calls), and a first call with an unseen name appends it at the end of the
table, preserving first-seen order. -/
theorem C7_setTextureName_idempotent (s : BatchState) (n : String) :
    SetTextureName (SetTextureName s n) n = SetTextureName s n ∧
    (SetTextureName s n).m_textures =
      (match s.m_texture_map.lookup n with
       | none => s.m_textures ++ [n]
       | some _ => s.m_textures) := by
  cases h : s.m_texture_map.lookup n with
  | some idx =>
    constructor
    · unfold SetTextureName
      simp [h]
    · unfold SetTextureName
      simp [h]
  | none =>
    constructor
    · unfold SetTextureName
      simp [h, List.lookup]
    · unfold SetTextureName
      simp [h]

/-! ### Claim C8 -/

/-- C8: the dump operation is deterministic and read-only: dumping, then
dumping again from the state left by the first dump, produces identical
OBJ and MTL outputs both times, and the state after both dumps is the
original batch state. -/
theorem C8_dump_deterministic (s : BatchState) (filename : String) :
    (DumpToFile (DumpToFile s filename).1 filename).2 =
      (DumpToFile s filename).2 ∧
    (DumpToFile (DumpToFile s filename).1 filename).1 = s := by
  exact ⟨rfl, rfl⟩

/-! ### Claim C9 -/

/-- C9: `TextureRegion::operator==` is true exactly when `u_min`, `u_max`
and `v_min` match field-wise and this region's `v_max` equals the *other*
region's `u_max`; consequently there is a region that does not compare
equal to itself. -/
theorem C9_eqOp_asymmetric :
    (∀ r other : TextureRegion,
      TextureRegion.eqOp r other = true ↔
        (r.u_min = other.u_min ∧ r.u_max = other.u_max ∧
         r.v_min = other.v_min ∧ r.v_max = other.u_max)) ∧
    ∃ r : TextureRegion, r.v_max ≠ r.u_max ∧ TextureRegion.eqOp r r = false := by
  constructor
  · intro r other
    unfold TextureRegion.eqOp
    simp [Bool.and_eq_true, and_assoc]
  · exact ⟨⟨0, 0, 0, 1⟩, by decide, by decide⟩

/-! ### Claim C10 -/

/-- C10: a freshly constructed batch has the identity UV remap state
(offsets 0, scales 1), so adding a textured triangle stores it with every
vertex's `u` and `v` coordinates unchanged. -/
theorem C10_fresh_remap_is_identity (c0 : Nat) (tri : Tri)
    (h : tri.texture_enabled = true) :
    (initState c0).m_u_offset = 0 ∧ (initState c0).m_v_offset = 0 ∧
    (initState c0).m_u_scale = 1 ∧ (initState c0).m_v_scale = 1 ∧
    ∃ t', (AddTri (initState c0) tri).m_tris = [t'] ∧
      t'.v0.u = tri.v0.u ∧ t'.v0.v = tri.v0.v ∧
      t'.v1.u = tri.v1.u ∧ t'.v1.v = tri.v1.v ∧
      t'.v2.u = tri.v2.u ∧ t'.v2.v = tri.v2.v := by
  refine ⟨rfl, rfl, rfl, rfl, ?_⟩
  refine ⟨{ tri with
            texture_index := (initState c0).m_cur_texture_index,
            v0 := remapVert (initState c0) tri.v0,
            v1 := remapVert (initState c0) tri.v1,
            v2 := remapVert (initState c0) tri.v2 }, ?_, ?_, ?_, ?_, ?_, ?_, ?_⟩
  · simp [AddTri, h, initState]
  all_goals simp [remapVert, initState]

/-- Witness for C10 at a concrete textured triangle. -/
theorem C10_witness :
    (initState 0).m_u_offset = 0 ∧ (initState 0).m_v_offset = 0 ∧
    (initState 0).m_u_scale = 1 ∧ (initState 0).m_v_scale = 1 ∧
    ∃ t', (AddTri (initState 0) sampleTexTri).m_tris = [t'] ∧
      t'.v0.u = sampleTexTri.v0.u ∧ t'.v0.v = sampleTexTri.v0.v ∧
      t'.v1.u = sampleTexTri.v1.u ∧ t'.v1.v = sampleTexTri.v1.v ∧
      t'.v2.u = sampleTexTri.v2.u ∧ t'.v2.v = sampleTexTri.v2.v :=
  C10_fresh_remap_is_identity 0 sampleTexTri rfl

/-! ### Claim C4 -/

/-- The invariant the spec asserts: every stored textured triangle's
texture index is a valid index into the texture table. -/
def TexIndexInv (s : BatchState) : Prop :=
  ∀ t ∈ s.m_tris, t.texture_enabled = true →
    t.texture_index < s.m_textures.length

/-- Auxiliary invariant: every binding in the lookup map is a valid index
into the texture table. -/
def MapOk (s : BatchState) : Prop :=
  ∀ p ∈ s.m_texture_map, p.2 < s.m_textures.length

/-- Checks that every textured `addTri` in a call sequence is preceded by
at least one `setName` call (`named` records whether one has already
happened). -/
def namedBefore (named : Bool) : List BatchOp → Bool
  | [] => true
  | .setName _ :: rest => namedBefore true rest
  | .setRegion _ _ _ :: rest => namedBefore named rest
  | .addTri t :: rest => (!t.texture_enabled || named) && namedBefore named rest

theorem lookup_mem_of_eq_some {l : List (String × Nat)} {k : String} {v : Nat}
    (h : l.lookup k = some v) : (k, v) ∈ l := by
  induction l with
  | nil => simp [List.lookup] at h
  | cons p rest ih =>
    rcases p with ⟨a, b⟩
    rw [List.lookup] at h
    by_cases hk : k = a
    · subst hk
      simp at h
      subst h
      exact List.mem_cons_self _ _
    · have hbeq : (k == a) = false := by
        simp [hk]
      rw [hbeq] at h
      simp at h
      exact List.mem_cons_of_mem _ (ih h)

theorem setTextureName_cur_lt (s : BatchState) (n : String) (hmap : MapOk s) :
    (SetTextureName s n).m_cur_texture_index <
      (SetTextureName s n).m_textures.length := by
  unfold SetTextureName
  cases h : s.m_texture_map.lookup n with
  | some idx =>
    simpa using hmap _ (lookup_mem_of_eq_some h)
  | none =>
    simp

theorem setTextureName_mapOk (s : BatchState) (n : String) (hmap : MapOk s) :
    MapOk (SetTextureName s n) := by
  unfold SetTextureName
  cases h : s.m_texture_map.lookup n with
  | some idx =>
    intro p hp
    simpa using hmap p hp
  | none =>
    intro p hp
    simp at hp
    rcases hp with hp | hp
    · simp [hp]
    · have := hmap p hp
      simp
      omega

theorem setTextureName_texIndexInv (s : BatchState) (n : String)
    (htris : TexIndexInv s) : TexIndexInv (SetTextureName s n) := by
  unfold SetTextureName
  cases h : s.m_texture_map.lookup n with
  | some idx =>
    intro t ht hen
    simp at ht
    simpa using htris t ht hen
  | none =>
    intro t ht hen
    simp at ht
    have := htris t ht hen
    simp
    omega

theorem runOps_texIndexInv (ops : List BatchOp) (s : BatchState) (named : Bool)
    (h : namedBefore named ops = true) (hmap : MapOk s) (htris : TexIndexInv s)
    (hcur : named = true →
      s.m_cur_texture_index < s.m_textures.length) :
    TexIndexInv (runOps s ops) := by
  induction ops generalizing s named with
  | nil => exact htris
  | cons op rest ih =>
    cases op with
    | setName n =>
      rw [namedBefore] at h
      exact ih (SetTextureName s n) true h
        (setTextureName_mapOk s n hmap)
        (setTextureName_texIndexInv s n htris)
        (fun _ => setTextureName_cur_lt s n hmap)
    | setRegion r tw th =>
      rw [namedBefore] at h
      exact ih (SetTextureRegion s r tw th) named h hmap htris hcur
    | addTri t =>
      rw [namedBefore, Bool.and_eq_true] at h
      refine ih (AddTri s t) named h.2 ?_ ?_ ?_
      · intro p hp
        simpa [AddTri] using hmap p hp
      · intro t' ht' hen
        simp [AddTri] at ht'
        rcases ht' with ht' | ht'
        · simpa [AddTri] using htris t' ht' hen
        · by_cases hten : t.texture_enabled = true
          · have hnamed : named = true := by
              rcases h with ⟨h1, _⟩
              rw [hten] at h1
              simpa using h1
            have hc := hcur hnamed
            simp [hten] at ht'
            subst ht'
            simpa [AddTri] using hc
          · simp [hten] at ht'
            subst ht'
            exact absurd hen hten
      · intro hn
        simpa [AddTri] using hcur hn

/-- C4 as stated is refuted: from a fresh batch, a single textured
`AddTri` with no preceding `SetTextureName` stores a textured triangle
whose index cannot be valid, the texture table being empty. -/
theorem C4_counterexample :
    ¬ TexIndexInv (runOps (initState 0) [BatchOp.addTri sampleTexTri]) := by
  intro h
  have hmem :
      ({ sampleTexTri with
          texture_index := 0,
          v0 := remapVert (initState 0) sampleTexTri.v0,
          v1 := remapVert (initState 0) sampleTexTri.v1,
          v2 := remapVert (initState 0) sampleTexTri.v2 } : Tri) ∈
        (runOps (initState 0) [BatchOp.addTri sampleTexTri]).m_tris := by
    simp [runOps, applyOp, AddTri, initState, sampleTexTri]
  have := h _ hmem rfl
  simp [runOps, applyOp, AddTri, initState] at this

/-- C4 amended: in every state reachable from a fresh batch by a call
sequence in which every textured `AddTri` is preceded by at least one
`SetTextureName`, every stored textured triangle's texture index is
strictly below the texture table's size. (Before the first
`SetTextureName`, `m_cur_texture_index` is uninitialised and the table is
empty, so a textured triangle added then — the counterexample — always
violates the invariant.) -/
theorem C4_amended (ops : List BatchOp) (c0 : Nat)
    (h : namedBefore false ops = true) :
    TexIndexInv (runOps (initState c0) ops) := by
  refine runOps_texIndexInv ops (initState c0) false h ?_ ?_ ?_
  · intro p hp
    simp [initState] at hp
  · intro t ht
    simp [initState] at ht
  · intro hn
    simp at hn

/-- Witness for C4 at a concrete call sequence: name a texture, then add
a textured triangle. -/
theorem C4_witness :
    TexIndexInv (runOps (initState 0)
      [BatchOp.setName sampleName, BatchOp.addTri sampleTexTri]) :=
  C4_amended [BatchOp.setName sampleName, BatchOp.addTri sampleTexTri] 0
    (by decide)

/-! ### Claims C1 and C2: the wrap-region resolver -/

theorem GetTextureRegionForCLAMP_u_min (C : GIFRegCLAMP) (tw th : Nat) :
    (GetTextureRegionForCLAMP C tw th).u_min =
      (resolveAxis C.WMS C.MINU C.MAXU tw).1 % 2 ^ 16 := rfl

theorem GetTextureRegionForCLAMP_u_max (C : GIFRegCLAMP) (tw th : Nat) :
    (GetTextureRegionForCLAMP C tw th).u_max =
      (resolveAxis C.WMS C.MINU C.MAXU tw).2 % 2 ^ 16 := rfl

theorem GetTextureRegionForCLAMP_v_min (C : GIFRegCLAMP) (tw th : Nat) :
    (GetTextureRegionForCLAMP C tw th).v_min =
      (resolveAxis C.WMT C.MINV C.MAXV th).1 % 2 ^ 16 := rfl

theorem GetTextureRegionForCLAMP_v_max (C : GIFRegCLAMP) (tw th : Nat) :
    (GetTextureRegionForCLAMP C tw th).v_max =
      (resolveAxis C.WMT C.MINV C.MAXV th).2 % 2 ^ 16 := rfl

theorem resolveAxis_rr_pos (MIN MAX dim : Nat)
    (hMIN : MIN ≤ 1023) (hMAX : MAX ≤ 1023) (h1 : 1 ≤ dim) (h2 : dim ≤ 2 ^ 16)
    (hpow : ∃ k, MIN + 1 = 2 ^ k) (hfix : MAX &&& MIN = 0) :
    resolveAxis WrapMode.REGION_REPEAT MIN MAX dim =
      (min MAX (dim - 1), min (MAX + MIN) (dim - 1)) := by
  have hm : (MIN + 1) % 2 ^ 32 = MIN + 1 := Nat.mod_eq_of_lt (by omega)
  have hc : ((MIN + 1) % 2 ^ 32) &&& MIN = 0 ∧ MAX &&& MIN = 0 := by
    rw [hm]
    exact ⟨(succ_land_self_iff MIN).mpr hpow, hfix⟩
  have hs : (MAX + MIN) % 2 ^ 32 = MAX + MIN := Nat.mod_eq_of_lt (by omega)
  show
    (Nat.min (if ((MIN + 1) % 2 ^ 32) &&& MIN = 0 ∧ MAX &&& MIN = 0
              then ((MAX : Nat), (MAX + MIN) % 2 ^ 32) else (0, u32pred dim)).1
       (Nat.min (if ((MIN + 1) % 2 ^ 32) &&& MIN = 0 ∧ MAX &&& MIN = 0
              then ((MAX : Nat), (MAX + MIN) % 2 ^ 32) else (0, u32pred dim)).2
         (u32pred dim)),
     Nat.min (if ((MIN + 1) % 2 ^ 32) &&& MIN = 0 ∧ MAX &&& MIN = 0
              then ((MAX : Nat), (MAX + MIN) % 2 ^ 32) else (0, u32pred dim)).2
       (u32pred dim)) =
    (min MAX (dim - 1), min (MAX + MIN) (dim - 1))
  rw [if_pos hc, hs, u32pred_of_le dim h1 h2]
  simp only [Prod.mk.injEq, Nat.min_def]
  constructor
  · split_ifs <;> omega
  · trivial

theorem resolveAxis_rr_neg (MIN MAX dim : Nat)
    (hMIN : MIN ≤ 1023) (h1 : 1 ≤ dim) (h2 : dim ≤ 2 ^ 16)
    (hnot : ¬((∃ k, MIN + 1 = 2 ^ k) ∧ MAX &&& MIN = 0)) :
    resolveAxis WrapMode.REGION_REPEAT MIN MAX dim = (0, dim - 1) := by
  have hm : (MIN + 1) % 2 ^ 32 = MIN + 1 := Nat.mod_eq_of_lt (by omega)
  have hc : ¬(((MIN + 1) % 2 ^ 32) &&& MIN = 0 ∧ MAX &&& MIN = 0) := by
    rw [hm]
    intro ⟨ha, hb⟩
    exact hnot ⟨(succ_land_self_iff MIN).mp ha, hb⟩
  show
    (Nat.min (if ((MIN + 1) % 2 ^ 32) &&& MIN = 0 ∧ MAX &&& MIN = 0
              then ((MAX : Nat), (MAX + MIN) % 2 ^ 32) else (0, u32pred dim)).1
       (Nat.min (if ((MIN + 1) % 2 ^ 32) &&& MIN = 0 ∧ MAX &&& MIN = 0
              then ((MAX : Nat), (MAX + MIN) % 2 ^ 32) else (0, u32pred dim)).2
         (u32pred dim)),
     Nat.min (if ((MIN + 1) % 2 ^ 32) &&& MIN = 0 ∧ MAX &&& MIN = 0
              then ((MAX : Nat), (MAX + MIN) % 2 ^ 32) else (0, u32pred dim)).2
       (u32pred dim)) =
    (0, dim - 1)
  rw [if_neg hc, u32pred_of_le dim h1 h2]
  simp only [Prod.mk.injEq, Nat.min_def]
  constructor
  · split_ifs <;> omega
  · split_ifs <;> omega

theorem resolveAxis_rc (MIN MAX dim : Nat) (h1 : 1 ≤ dim) (h2 : dim ≤ 2 ^ 16) :
    resolveAxis WrapMode.REGION_CLAMP MIN MAX dim =
      (min MIN (min MAX (dim - 1)), min MAX (dim - 1)) := by
  show
    (Nat.min MIN (Nat.min MAX (u32pred dim)), Nat.min MAX (u32pred dim)) =
      (min MIN (min MAX (dim - 1)), min MAX (dim - 1))
  rw [u32pred_of_le dim h1 h2]

/-- C1: with a wrap mode of region-repeat on an axis, reading `MIN` as
the mask MSK and `MAX` as the offset FIX: if MSK+1 is a power of two and
FIX shares no bits with MSK, the resolved axis region is [FIX, FIX+MSK]
clamped to [0, dim−1]; if either structural condition fails, it is the
full axis [0, dim−1]. Horizontal uses `twidth`, vertical `theight`,
independently. Parameter fields are bounded by their 10-bit register
width and dimensions are actual GS texture sizes (1 ≤ dim ≤ 2^16). -/
theorem C1_region_repeat (CLAMP : GIFRegCLAMP) (twidth theight : Nat)
    (hMINU : CLAMP.MINU ≤ 1023) (hMAXU : CLAMP.MAXU ≤ 1023)
    (hMINV : CLAMP.MINV ≤ 1023) (hMAXV : CLAMP.MAXV ≤ 1023)
    (htw1 : 1 ≤ twidth) (htw2 : twidth ≤ 2 ^ 16)
    (hth1 : 1 ≤ theight) (hth2 : theight ≤ 2 ^ 16) :
    (CLAMP.WMS = WrapMode.REGION_REPEAT →
      (((∃ k, CLAMP.MINU + 1 = 2 ^ k) ∧ CLAMP.MAXU &&& CLAMP.MINU = 0) →
        (GetTextureRegionForCLAMP CLAMP twidth theight).u_min =
          min CLAMP.MAXU (twidth - 1) ∧
        (GetTextureRegionForCLAMP CLAMP twidth theight).u_max =
          min (CLAMP.MAXU + CLAMP.MINU) (twidth - 1)) ∧
      (¬((∃ k, CLAMP.MINU + 1 = 2 ^ k) ∧ CLAMP.MAXU &&& CLAMP.MINU = 0) →
        (GetTextureRegionForCLAMP CLAMP twidth theight).u_min = 0 ∧
        (GetTextureRegionForCLAMP CLAMP twidth theight).u_max = twidth - 1)) ∧
    (CLAMP.WMT = WrapMode.REGION_REPEAT →
      (((∃ k, CLAMP.MINV + 1 = 2 ^ k) ∧ CLAMP.MAXV &&& CLAMP.MINV = 0) →
        (GetTextureRegionForCLAMP CLAMP twidth theight).v_min =
          min CLAMP.MAXV (theight - 1) ∧
        (GetTextureRegionForCLAMP CLAMP twidth theight).v_max =
          min (CLAMP.MAXV + CLAMP.MINV) (theight - 1)) ∧
      (¬((∃ k, CLAMP.MINV + 1 = 2 ^ k) ∧ CLAMP.MAXV &&& CLAMP.MINV = 0) →
        (GetTextureRegionForCLAMP CLAMP twidth theight).v_min = 0 ∧
        (GetTextureRegionForCLAMP CLAMP twidth theight).v_max = theight - 1)) := by
  constructor
  · intro hWMS
    constructor
    · intro hcond
      have hax := resolveAxis_rr_pos CLAMP.MINU CLAMP.MAXU twidth
        hMINU hMAXU htw1 htw2 hcond.1 hcond.2
      constructor
      · rw [GetTextureRegionForCLAMP_u_min, hWMS, hax]
        exact Nat.mod_eq_of_lt (by omega)
      · rw [GetTextureRegionForCLAMP_u_max, hWMS, hax]
        exact Nat.mod_eq_of_lt (by omega)
    · intro hcond
      have hax := resolveAxis_rr_neg CLAMP.MINU CLAMP.MAXU twidth
        hMINU htw1 htw2 hcond
      constructor
      · rw [GetTextureRegionForCLAMP_u_min, hWMS, hax]
        simp
      · rw [GetTextureRegionForCLAMP_u_max, hWMS, hax]
        exact Nat.mod_eq_of_lt (by omega)
  · intro hWMT
    constructor
    · intro hcond
      have hax := resolveAxis_rr_pos CLAMP.MINV CLAMP.MAXV theight
        hMINV hMAXV hth1 hth2 hcond.1 hcond.2
      constructor
      · rw [GetTextureRegionForCLAMP_v_min, hWMT, hax]
        exact Nat.mod_eq_of_lt (by omega)
      · rw [GetTextureRegionForCLAMP_v_max, hWMT, hax]
        exact Nat.mod_eq_of_lt (by omega)
    · intro hcond
      have hax := resolveAxis_rr_neg CLAMP.MINV CLAMP.MAXV theight
        hMINV hth1 hth2 hcond
      constructor
      · rw [GetTextureRegionForCLAMP_v_min, hWMT, hax]
        simp
      · rw [GetTextureRegionForCLAMP_v_max, hWMT, hax]
        exact Nat.mod_eq_of_lt (by omega)

/-- A sample CLAMP register in region-repeat mode on both axes: the
horizontal parameters satisfy both structural conditions (MSK = 7,
FIX = 8), the vertical ones violate the power-of-two condition
(MSK = 5). -/
def clampSampleRR : GIFRegCLAMP :=
  { WMS := .REGION_REPEAT, WMT := .REGION_REPEAT,
    MINU := 7, MAXU := 8, MINV := 5, MAXV := 4 }

/-- Witness for C1: for the sample register with `twidth = 32` and
`theight = 64` the horizontal region is [8, 15] and the vertical one
falls back to [0, 63]. -/
theorem C1_witness :
    (GetTextureRegionForCLAMP clampSampleRR 32 64).u_min = 8 ∧
    (GetTextureRegionForCLAMP clampSampleRR 32 64).u_max = 15 ∧
    (GetTextureRegionForCLAMP clampSampleRR 32 64).v_min = 0 ∧
    (GetTextureRegionForCLAMP clampSampleRR 32 64).v_max = 63 := by
  have h := C1_region_repeat clampSampleRR 32 64
    (by norm_num [clampSampleRR]) (by norm_num [clampSampleRR])
    (by norm_num [clampSampleRR]) (by norm_num [clampSampleRR])
    (by norm_num) (by norm_num) (by norm_num) (by norm_num)
  have hu := (h.1 rfl).1 ⟨⟨3, by norm_num [clampSampleRR]⟩, by decide⟩
  have hnot : ¬((∃ k, clampSampleRR.MINV + 1 = 2 ^ k) ∧
      clampSampleRR.MAXV &&& clampSampleRR.MINV = 0) := by
    rintro ⟨hpow, -⟩
    have h6 : (5 + 1) &&& 5 = 0 := (succ_land_self_iff 5).mpr hpow
    exact absurd h6 (by decide)
  have hv := (h.2 rfl).2 hnot
  refine ⟨?_, ?_, ?_, ?_⟩
  · rw [hu.1]; decide
  · rw [hu.2]; decide
  · exact hv.1
  · rw [hv.2]

/-- C2: with a wrap mode of region-clamp on an axis, the resolved axis
region is [min(MIN, dim−1) further clamped to be ≤ the resolved max,
min(MAX, dim−1)], and it always satisfies min ≤ max ≤ dim−1 — never
inverted and never out of bounds. -/
theorem C2_region_clamp (CLAMP : GIFRegCLAMP) (twidth theight : Nat)
    (hMINU : CLAMP.MINU ≤ 1023) (hMAXU : CLAMP.MAXU ≤ 1023)
    (hMINV : CLAMP.MINV ≤ 1023) (hMAXV : CLAMP.MAXV ≤ 1023)
    (htw1 : 1 ≤ twidth) (htw2 : twidth ≤ 2 ^ 16)
    (hth1 : 1 ≤ theight) (hth2 : theight ≤ 2 ^ 16) :
    (CLAMP.WMS = WrapMode.REGION_CLAMP →
      (GetTextureRegionForCLAMP CLAMP twidth theight).u_max =
        min CLAMP.MAXU (twidth - 1) ∧
      (GetTextureRegionForCLAMP CLAMP twidth theight).u_min =
        min (min CLAMP.MINU (twidth - 1))
          (min CLAMP.MAXU (twidth - 1)) ∧
      (GetTextureRegionForCLAMP CLAMP twidth theight).u_min ≤
        (GetTextureRegionForCLAMP CLAMP twidth theight).u_max ∧
      (GetTextureRegionForCLAMP CLAMP twidth theight).u_max ≤ twidth - 1) ∧
    (CLAMP.WMT = WrapMode.REGION_CLAMP →
      (GetTextureRegionForCLAMP CLAMP twidth theight).v_max =
        min CLAMP.MAXV (theight - 1) ∧
      (GetTextureRegionForCLAMP CLAMP twidth theight).v_min =
        min (min CLAMP.MINV (theight - 1))
          (min CLAMP.MAXV (theight - 1)) ∧
      (GetTextureRegionForCLAMP CLAMP twidth theight).v_min ≤
        (GetTextureRegionForCLAMP CLAMP twidth theight).v_max ∧
      (GetTextureRegionForCLAMP CLAMP twidth theight).v_max ≤ theight - 1) := by
  constructor
  · intro hWMS
    have hax := resolveAxis_rc CLAMP.MINU CLAMP.MAXU twidth htw1 htw2
    have hminv : (GetTextureRegionForCLAMP CLAMP twidth theight).u_min =
        min CLAMP.MINU (min CLAMP.MAXU (twidth - 1)) := by
      rw [GetTextureRegionForCLAMP_u_min, hWMS, hax]
      exact Nat.mod_eq_of_lt (by omega)
    have hmaxv : (GetTextureRegionForCLAMP CLAMP twidth theight).u_max =
        min CLAMP.MAXU (twidth - 1) := by
      rw [GetTextureRegionForCLAMP_u_max, hWMS, hax]
      exact Nat.mod_eq_of_lt (by omega)
    refine ⟨hmaxv, ?_, ?_, ?_⟩
    · rw [hminv]; omega
    · rw [hminv, hmaxv]; omega
    · rw [hmaxv]; omega
  · intro hWMT
    have hax := resolveAxis_rc CLAMP.MINV CLAMP.MAXV theight hth1 hth2
    have hminv : (GetTextureRegionForCLAMP CLAMP twidth theight).v_min =
        min CLAMP.MINV (min CLAMP.MAXV (theight - 1)) := by
      rw [GetTextureRegionForCLAMP_v_min, hWMT, hax]
      exact Nat.mod_eq_of_lt (by omega)
    have hmaxv : (GetTextureRegionForCLAMP CLAMP twidth theight).v_max =
        min CLAMP.MAXV (theight - 1) := by
      rw [GetTextureRegionForCLAMP_v_max, hWMT, hax]
      exact Nat.mod_eq_of_lt (by omega)
    refine ⟨hmaxv, ?_, ?_, ?_⟩
    · rw [hminv]; omega
    · rw [hminv, hmaxv]; omega
    · rw [hmaxv]; omega

/-- A sample CLAMP register in region-clamp mode on both axes, with the
vertical MAX exceeding the texture height. -/
def clampSampleRC : GIFRegCLAMP :=
  { WMS := .REGION_CLAMP, WMT := .REGION_CLAMP,
    MINU := 3, MAXU := 9, MINV := 10, MAXV := 200 }

/-- Witness for C2: for the sample register with `twidth = 16` and
`theight = 64` the horizontal region is [3, 9] and the vertical one is
clamped to [10, 63]. -/
theorem C2_witness :
    (GetTextureRegionForCLAMP clampSampleRC 16 64).u_min = 3 ∧
    (GetTextureRegionForCLAMP clampSampleRC 16 64).u_max = 9 ∧
    (GetTextureRegionForCLAMP clampSampleRC 16 64).v_min = 10 ∧
    (GetTextureRegionForCLAMP clampSampleRC 16 64).v_max = 63 := by
  have h := C2_region_clamp clampSampleRC 16 64
    (by norm_num [clampSampleRC]) (by norm_num [clampSampleRC])
    (by norm_num [clampSampleRC]) (by norm_num [clampSampleRC])
    (by norm_num) (by norm_num) (by norm_num) (by norm_num)
  have hu := h.1 rfl
  have hv := h.2 rfl
  obtain ⟨hu1, hu2, -, -⟩ := hu
  obtain ⟨hv1, hv2, -, -⟩ := hv
  refine ⟨?_, ?_, ?_, ?_⟩
  · rw [hu2]; decide
  · rw [hu1]; decide
  · rw [hv2]; decide
  · rw [hv1]; decide

/-! ### Claim C3 -/

/-- A vertex whose texture coordinates (1, 1) equal the texel bounds
`u_min = v_min = 1` of the sample region used to refute C3. -/
def c3vert : Vert :=
  { x := 0, y := 0, z := 0, q := 1, u := 1, v := 1, r := 0, g := 0, b := 0,
    a := 0 }

/-- A textured triangle carrying `c3vert`. -/
def c3tri : Tri :=
  { v0 := c3vert, v1 := c3vert, v2 := c3vert, culled := false,
    texture_enabled := true, texture_index := 0 }

/-- C3 as stated is refuted: with region `u_min = u_max = v_min = v_max
= 1` and a 2×2 texture, the vertex with `(u, v) = (region.u_min,
region.v_min) = (1, 1)` is stored with `(u, v) = (1, 1)`, not `(0, 0)`:
`(1 + (−1/2)) * (2/1) = 1`, an exact computation also in `float`. -/
theorem C3_counterexample :
    ∃ t', (AddTri (SetTextureRegion (initState 0)
        { u_min := 1, u_max := 1, v_min := 1, v_max := 1 } 2 2)
        c3tri).m_tris = [t'] ∧
      t'.v0.u = 1 ∧ t'.v0.v = 1 ∧ t'.v0.u ≠ 0 ∧ t'.v0.v ≠ 0 := by
  refine ⟨_, rfl, ?_, ?_, ?_, ?_⟩ <;>
    norm_num [AddTri, SetTextureRegion, initState, remapVert, c3tri, c3vert]

/-- C3 amended: the remap normalises the *normalised* corner
coordinates: after `SetTextureRegion(region, twidth, theight)`, a
textured triangle whose vertex carries `(u, v) = (region.u_min / twidth,
region.v_min / theight)` is stored with `(u, v) = (0, 0)`, and a vertex
carrying `((region.u_max + 1) / twidth, (region.v_max + 1) / theight)`
is stored with `(1, 1)` — exactly, in the idealised (rational) float
model. -/
theorem C3_amended (s : BatchState) (region : TextureRegion) (tw th : Nat)
    (tri : Tri)
    (htw : 1 ≤ tw) (hth : 1 ≤ th)
    (hu : region.u_min ≤ region.u_max) (hv : region.v_min ≤ region.v_max)
    (hten : tri.texture_enabled = true)
    (h0u : tri.v0.u = (region.u_min : ℚ) / (tw : ℚ))
    (h0v : tri.v0.v = (region.v_min : ℚ) / (th : ℚ))
    (h1u : tri.v1.u = ((region.u_max : ℚ) + 1) / (tw : ℚ))
    (h1v : tri.v1.v = ((region.v_max : ℚ) + 1) / (th : ℚ)) :
    ∃ t', (AddTri (SetTextureRegion s region tw th) tri).m_tris =
        s.m_tris ++ [t'] ∧
      t'.v0.u = 0 ∧ t'.v0.v = 0 ∧ t'.v1.u = 1 ∧ t'.v1.v = 1 := by
  have htw0 : (tw : ℚ) ≠ 0 := Nat.cast_ne_zero.mpr (by omega)
  have hth0 : (th : ℚ) ≠ 0 := Nat.cast_ne_zero.mpr (by omega)
  have hucast : (region.u_min : ℚ) ≤ (region.u_max : ℚ) := by
    exact_mod_cast hu
  have hvcast : (region.v_min : ℚ) ≤ (region.v_max : ℚ) := by
    exact_mod_cast hv
  have hA : ((region.u_max : ℚ) - (region.u_min : ℚ) + 1) ≠ 0 := by
    intro hz
    linarith
  have hB : ((region.v_max : ℚ) - (region.v_min : ℚ) + 1) ≠ 0 := by
    intro hz
    linarith
  refine ⟨{ tri with
      texture_index := (SetTextureRegion s region tw th).m_cur_texture_index,
      v0 := remapVert (SetTextureRegion s region tw th) tri.v0,
      v1 := remapVert (SetTextureRegion s region tw th) tri.v1,
      v2 := remapVert (SetTextureRegion s region tw th) tri.v2 },
    ?_, ?_, ?_, ?_, ?_⟩
  · simp [AddTri, hten, SetTextureRegion]
  · simp only [remapVert, SetTextureRegion, h0u]
    field_simp
  · simp only [remapVert, SetTextureRegion, h0v]
    field_simp
  · simp only [remapVert, SetTextureRegion, h1u]
    field_simp
    ring
  · simp only [remapVert, SetTextureRegion, h1v]
    field_simp
    ring

/-- First corner vertex for the C3 witness: `(2/8, 4/16)`. -/
def c3wvert0 : Vert :=
  { x := 0, y := 0, z := 0, q := 1, u := 1/4, v := 1/4, r := 0, g := 0,
    b := 0, a := 0 }

/-- Second corner vertex for the C3 witness: `((3+1)/8, (7+1)/16)`. -/
def c3wvert1 : Vert :=
  { x := 0, y := 0, z := 0, q := 1, u := 1/2, v := 1/2, r := 0, g := 0,
    b := 0, a := 0 }

/-- A textured triangle carrying both corner vertices. -/
def c3wtri : Tri :=
  { v0 := c3wvert0, v1 := c3wvert1, v2 := c3wvert0, culled := false,
    texture_enabled := true, texture_index := 0 }

/-- Witness for C3 (amended) at region [2,3]×[4,7] on an 8×16 texture. -/
theorem C3_witness :
    ∃ t', (AddTri (SetTextureRegion (initState 0)
        { u_min := 2, u_max := 3, v_min := 4, v_max := 7 } 8 16)
        c3wtri).m_tris = (initState 0).m_tris ++ [t'] ∧
      t'.v0.u = 0 ∧ t'.v0.v = 0 ∧ t'.v1.u = 1 ∧ t'.v1.v = 1 :=
  C3_amended (initState 0) { u_min := 2, u_max := 3, v_min := 4, v_max := 7 }
    8 16 c3wtri (by norm_num) (by norm_num) (by norm_num) (by norm_num) rfl
    (by norm_num [c3wtri, c3wvert0]) (by norm_num [c3wtri, c3wvert0])
    (by norm_num [c3wtri, c3wvert1]) (by norm_num [c3wtri, c3wvert1])

/-! ### Claim C5 -/

@[simp] theorem isV_vLineOf (x : Vert) : isV (vLineOf x) = true := rfl

@[simp] theorem isVt_vLineOf (x : Vert) : isVt (vLineOf x) = false := rfl

@[simp] theorem isV_vtLineOf (x : Vert) : isV (vtLineOf x) = false := rfl

@[simp] theorem isVt_vtLineOf (x : Vert) : isVt (vtLineOf x) = true := rfl

theorem triObjLines_split (prev : Option Tri) (tri : Tri)
    (textures : List String) :
    ∃ mid, triObjLines prev tri textures =
        ([vLineOf tri.v0, vLineOf tri.v1, vLineOf tri.v2,
          vtLineOf tri.v0, vtLineOf tri.v1, vtLineOf tri.v2] ++ mid) ++
          [ObjLine.f [(-3, -3), (-1, -1), (-2, -2)]] ∧
      mid.filter isV = [] ∧ mid.filter isVt = [] := by
  unfold triObjLines
  cases prev with
  | none =>
    refine ⟨[ObjLine.g tri.culled,
      ObjLine.usemtl
        (if tri.texture_enabled then textures.getD tri.texture_index oobName
         else noTextureName)], ?_, rfl, rfl⟩
    simp
  | some p =>
    by_cases h1 : (p.culled != tri.culled) = true
    · by_cases h2 : (p.texture_enabled != tri.texture_enabled ||
          p.texture_index != tri.texture_index) = true
      · refine ⟨[ObjLine.g tri.culled,
          ObjLine.usemtl
            (if tri.texture_enabled then
              textures.getD tri.texture_index oobName
             else noTextureName)], ?_, rfl, rfl⟩
        simp [h1, h2]
      · refine ⟨[ObjLine.g tri.culled], ?_, rfl, rfl⟩
        simp [h1, h2]
    · by_cases h2 : (p.texture_enabled != tri.texture_enabled ||
          p.texture_index != tri.texture_index) = true
      · refine ⟨[ObjLine.usemtl
            (if tri.texture_enabled then
              textures.getD tri.texture_index oobName
             else noTextureName)], ?_, rfl, rfl⟩
        simp [h1, h2]
      · refine ⟨[], ?_, rfl, rfl⟩
        simp [h1, h2]

/-- C5 amended: for every triangle the serializer emits exactly one face
record, as the last record of the triangle's block, pairing vertex and
texcoord indices (-3,-3) (-1,-1) (-2,-2). Resolving these negative
(relative-to-end) indices against all `v` and `vt` records emitted so
far — whatever came before the block — picks the triangle's three
vertices in the order **first, third, second**, not third, first,
second. -/
theorem C5_amended (prev : Option Tri) (tri : Tri) (textures : List String)
    (acc : List ObjLine) :
    (triObjLines prev tri textures).getLast? =
      some (ObjLine.f [(-3, -3), (-1, -1), (-2, -2)]) ∧
    (triObjLines prev tri textures).dropLast.filter isV =
      [vLineOf tri.v0, vLineOf tri.v1, vLineOf tri.v2] ∧
    (triObjLines prev tri textures).dropLast.filter isVt =
      [vtLineOf tri.v0, vtLineOf tri.v1, vtLineOf tri.v2] ∧
    [(-3 : Int), -1, -2].map
        (fun k =>
          negRef ((acc ++ (triObjLines prev tri textures).dropLast).filter isV)
            k) =
      [some (vLineOf tri.v0), some (vLineOf tri.v2), some (vLineOf tri.v1)] ∧
    [(-3 : Int), -1, -2].map
        (fun k =>
          negRef
            ((acc ++ (triObjLines prev tri textures).dropLast).filter isVt)
            k) =
      [some (vtLineOf tri.v0), some (vtLineOf tri.v2), some (vtLineOf tri.v1)] := by
  obtain ⟨mid, heq, hmv, hmvt⟩ := triObjLines_split prev tri textures
  rw [heq]
  refine ⟨?_, ?_, ?_, ?_, ?_⟩
  · exact List.getLast?_concat _
  · rw [List.dropLast_concat]
    simp [hmv]
  · rw [List.dropLast_concat]
    simp [hmvt]
  · rw [List.dropLast_concat]
    simp only [List.map, negRef, List.filter_append, hmv, List.append_nil]
    simp [List.reverse_append, List.get?]
  · rw [List.dropLast_concat]
    simp only [List.map, negRef, List.filter_append, hmvt, List.append_nil]
    simp [List.reverse_append, List.get?]

/-- C5 as stated is refuted: for a batch holding one triangle, the only
face record in the geometry output carries the index pairs (-3,-3)
(-1,-1) (-2,-2) — vertex order (first, third, second) — and not
(-1,-1) (-3,-3) (-2,-2) (third, first, second) as claimed. -/
theorem C5_counterexample :
    (DumpOBJ (AddTri (initState 0) samplePlainTri) sceneName).filter isF =
      [ObjLine.f [(-3, -3), (-1, -1), (-2, -2)]] ∧
    (DumpOBJ (AddTri (initState 0) samplePlainTri) sceneName).filter isF ≠
      [ObjLine.f [(-1, -1), (-3, -3), (-2, -2)]] := by
  constructor
  · decide
  · decide

/-! ### Claim C6 -/

/-- Number of face records in an output fragment, i.e. the number of
complete triangle blocks it contains. -/
def countF (lines : List ObjLine) : Nat := (lines.filter isF).length

theorem gEvents_append (k : Nat) (xs ys : List ObjLine) :
    gEvents k (xs ++ ys) = gEvents k xs ++ gEvents (k + countF xs) ys := by
  induction xs generalizing k with
  | nil => simp [gEvents, countF]
  | cons x rest ih =>
    cases x with
    | comment t => simp [gEvents, countF, isF, ih]
    | mtllib t => simp [gEvents, countF, isF, ih]
    | v a b c d e f => simp [gEvents, countF, isF, ih]
    | vt a b => simp [gEvents, countF, isF, ih]
    | g b => simp [gEvents, countF, isF, ih]
    | usemtl t => simp [gEvents, countF, isF, ih]
    | f l =>
      have hcf : countF (ObjLine.f l :: rest) = countF rest + 1 := by
        simp [countF, isF]
      simp only [List.cons_append, gEvents, hcf]
      have h3 : k + (countF rest + 1) = k + 1 + countF rest := by omega
      rw [h3]
      exact ih (k + 1)

theorem countF_triObjLines (prev : Option Tri) (t : Tri)
    (textures : List String) : countF (triObjLines prev t textures) = 1 := by
  unfold triObjLines
  cases prev with
  | none => simp [countF, isF, vLineOf, vtLineOf]
  | some p =>
    by_cases h1 : (p.culled != t.culled) = true <;>
      by_cases h2 : (p.texture_enabled != t.texture_enabled ||
        p.texture_index != t.texture_index) = true <;>
      simp [h1, h2, countF, isF, vLineOf, vtLineOf]

theorem gEvents_triObjLines (prev : Option Tri) (t : Tri)
    (textures : List String) (k : Nat) :
    gEvents k (triObjLines prev t textures) =
      (match prev with
       | none => [(k, t.culled)]
       | some p => if p.culled != t.culled then [(k, t.culled)] else []) := by
  unfold triObjLines
  cases prev with
  | none => simp [gEvents, vLineOf, vtLineOf]
  | some p =>
    by_cases h1 : (p.culled != t.culled) = true <;>
      by_cases h2 : (p.texture_enabled != t.texture_enabled ||
        p.texture_index != t.texture_index) = true <;>
      simp [h1, h2, gEvents, vLineOf, vtLineOf]

theorem gEvents_objBody (tris : List Tri) (prevT : Option Tri) (k : Nat)
    (textures : List String) :
    gEvents k (objBody prevT tris textures) =
      gExpected (prevT.map Tri.culled) k tris := by
  induction tris generalizing prevT k with
  | nil => cases prevT <;> simp [objBody, gEvents, gExpected]
  | cons t ts ih =>
    rw [objBody, gEvents_append, gEvents_triObjLines,
      countF_triObjLines, ih]
    cases prevT with
    | none => simp [gExpected]
    | some p =>
      by_cases hc : p.culled = t.culled <;> simp [gExpected, hc]

/-- C6: in the geometry output the group records appear exactly as the
spec says: tagging each group record with the index of the triangle
whose block contains it, the records are precisely one for triangle 0
and one for each triangle whose culled flag differs from its immediate
predecessor's, each carrying that triangle's culled flag; in particular
no group record sits between two consecutive triangles with equal
flags. -/
theorem C6_group_markers (s : BatchState) (filename : String) :
    gEvents 0 (DumpOBJ s filename) = gExpected none 0 s.m_tris := by
  unfold DumpOBJ
  rw [show gEvents 0 (ObjLine.comment objHeaderText :: ObjLine.mtllib filename ::
      objBody none s.m_tris s.m_textures) =
      gEvents 0 (objBody none s.m_tris s.m_textures) from rfl]
  exact gEvents_objBody s.m_tris none 0 s.m_textures

end GS3D
